import Mathlib

/-!
Verification of the declaration surface of
`Sources/DDCSupport/include/DDCSupport.h` from the Unified-Audio-Control
repository.  The header holds no function bodies: it is a flat list of
external function declarations plus one `typedef`.  We embed it as a list
of typed declaration records, one per `extern`
line, in source order, and prove the spec's claims about that surface.
-/

/-- The C types appearing in the header's declarations.  `ptr` is a C
pointer type (`T*`) and `constQ` a `const`-qualified type; the header never
uses `const`, which is exactly what some claims assert. -/
inductive CType where
  | void
  | bool
  | cInt
  | cFloat
  | uint32
  | cfTypeRef
  | cfAllocatorRef
  | cfDictionaryRef
  | cfUUIDRef
  | ioServiceT
  | ioReturn
  | cgDirectDisplayID
  | ptr (pointee : CType)
  | constQ (base : CType)
  deriving DecidableEq, BEq, Repr

/-- `typedef CFTypeRef IOAVService;` — a C `typedef` introduces an alias,
not a distinct type, so the embedding is a plain definitional alias. -/
def IOAVService : CType := CType.cfTypeRef

/-- One external function declaration of the header: symbol name, parameter
types in order, return type, and whether the declaration carries
`__attribute__((weak_import))`. -/
structure CDecl where
  name : String
  params : List CType
  ret : CType
  weakImport : Bool
  deriving DecidableEq, BEq, Repr

/-- `extern IOAVService IOAVServiceCreate(CFAllocatorRef allocator);` -/
def IOAVServiceCreate : CDecl :=
  ⟨"IOAVServiceCreate", [CType.cfAllocatorRef], IOAVService, false⟩

/-- `extern IOAVService IOAVServiceCreateWithService(CFAllocatorRef allocator, io_service_t service);` -/
def IOAVServiceCreateWithService : CDecl :=
  ⟨"IOAVServiceCreateWithService", [CType.cfAllocatorRef, CType.ioServiceT],
    IOAVService, false⟩

/-- `extern IOReturn IOAVServiceReadI2C(IOAVService service, uint32_t chipAddress, uint32_t offset, void* outputBuffer, uint32_t outputBufferSize);` -/
def IOAVServiceReadI2C : CDecl :=
  ⟨"IOAVServiceReadI2C",
    [IOAVService, CType.uint32, CType.uint32, CType.ptr CType.void,
      CType.uint32],
    CType.ioReturn, false⟩

/-- `extern IOReturn IOAVServiceWriteI2C(IOAVService service, uint32_t chipAddress, uint32_t dataAddress, void* inputBuffer, uint32_t inputBufferSize);` -/
def IOAVServiceWriteI2C : CDecl :=
  ⟨"IOAVServiceWriteI2C",
    [IOAVService, CType.uint32, CType.uint32, CType.ptr CType.void,
      CType.uint32],
    CType.ioReturn, false⟩

/-- `extern CFDictionaryRef CoreDisplay_DisplayCreateInfoDictionary(CGDirectDisplayID);` -/
def CoreDisplay_DisplayCreateInfoDictionary : CDecl :=
  ⟨"CoreDisplay_DisplayCreateInfoDictionary", [CType.cgDirectDisplayID],
    CType.cfDictionaryRef, false⟩

/-- `extern CFUUIDRef CGDisplayCreateUUIDFromDisplayID(CGDirectDisplayID display);` -/
def CGDisplayCreateUUIDFromDisplayID : CDecl :=
  ⟨"CGDisplayCreateUUIDFromDisplayID", [CType.cgDirectDisplayID],
    CType.cfUUIDRef, false⟩

/-- `extern int DisplayServicesGetBrightness(CGDirectDisplayID display, float *brightness);` -/
def DisplayServicesGetBrightness : CDecl :=
  ⟨"DisplayServicesGetBrightness",
    [CType.cgDirectDisplayID, CType.ptr CType.cFloat], CType.cInt, false⟩

/-- `extern int DisplayServicesSetBrightness(CGDirectDisplayID display, float brightness);` -/
def DisplayServicesSetBrightness : CDecl :=
  ⟨"DisplayServicesSetBrightness",
    [CType.cgDirectDisplayID, CType.cFloat], CType.cInt, false⟩

/-- `extern int DisplayServicesGetLinearBrightness(CGDirectDisplayID display, float *brightness);` -/
def DisplayServicesGetLinearBrightness : CDecl :=
  ⟨"DisplayServicesGetLinearBrightness",
    [CType.cgDirectDisplayID, CType.ptr CType.cFloat], CType.cInt, false⟩

/-- `extern int DisplayServicesSetLinearBrightness(CGDirectDisplayID display, float brightness);` -/
def DisplayServicesSetLinearBrightness : CDecl :=
  ⟨"DisplayServicesSetLinearBrightness",
    [CType.cgDirectDisplayID, CType.cFloat], CType.cInt, false⟩

/-- `extern void CGSServiceForDisplayNumber(CGDirectDisplayID display, io_service_t* service);` -/
def CGSServiceForDisplayNumber : CDecl :=
  ⟨"CGSServiceForDisplayNumber",
    [CType.cgDirectDisplayID, CType.ptr CType.ioServiceT], CType.void, false⟩

/-- `bool CGSIsHDREnabled(CGDirectDisplayID display) __attribute__((weak_import));` -/
def CGSIsHDREnabled : CDecl :=
  ⟨"CGSIsHDREnabled", [CType.cgDirectDisplayID], CType.bool, true⟩

/-- `bool CGSIsHDRSupported(CGDirectDisplayID display) __attribute__((weak_import));` -/
def CGSIsHDRSupported : CDecl :=
  ⟨"CGSIsHDRSupported", [CType.cgDirectDisplayID], CType.bool, true⟩

/-- All function declarations of `DDCSupport.h`, in source order. -/
def DDCSupport_header : List CDecl :=
  [IOAVServiceCreate, IOAVServiceCreateWithService, IOAVServiceReadI2C,
    IOAVServiceWriteI2C, CoreDisplay_DisplayCreateInfoDictionary,
    CGDisplayCreateUUIDFromDisplayID, DisplayServicesGetBrightness,
    DisplayServicesSetBrightness, DisplayServicesGetLinearBrightness,
    DisplayServicesSetLinearBrightness, CGSServiceForDisplayNumber,
    CGSIsHDREnabled, CGSIsHDRSupported]

/-- Whether a C type carries a `const` qualifier anywhere inside it. -/
def CType.hasConst : CType → Bool
  | CType.ptr t => t.hasConst
  | CType.constQ _ => true
  | _ => false

/-- Whether any type in a declaration's signature carries `const`. -/
def CDecl.mentionsConst (d : CDecl) : Bool :=
  d.ret.hasConst || d.params.any CType.hasConst

/-- Whether a type is a pointer type. -/
def CType.isPtr : CType → Bool
  | CType.ptr _ => true
  | _ => false

/-- Claim C1: exactly two declarations are weak-imported, the HDR queries
`CGSIsHDREnabled` and `CGSIsHDRSupported`; each takes one display
identifier and returns a boolean, and no other declaration in the header
is weak-imported. -/
theorem claim_C1_weak_import_surface :
    DDCSupport_header.filter (fun d => d.weakImport)
      = [CGSIsHDREnabled, CGSIsHDRSupported]
    ∧ CGSIsHDREnabled.params = [CType.cgDirectDisplayID]
    ∧ CGSIsHDREnabled.ret = CType.bool
    ∧ CGSIsHDRSupported.params = [CType.cgDirectDisplayID]
    ∧ CGSIsHDRSupported.ret = CType.bool := by
  decide

/-- Claim C2: the header surface is exactly thirteen distinct external
function declarations — two returning the opaque service-handle type
(creators), two returning `IOReturn` (I2C transfers), one returning a
dictionary reference, one returning a UUID reference, four returning
`int` (brightness), one returning `void` (service resolution), two
returning `bool` (HDR) — together with the single type alias
`IOAVService = CFTypeRef`. -/
theorem claim_C2_surface_is_thirteen_decls_plus_alias :
    DDCSupport_header.length = 13
    ∧ (DDCSupport_header.map (fun d => d.name)).Nodup
    ∧ (DDCSupport_header.filter (fun d => d.ret = IOAVService)).length = 2
    ∧ (DDCSupport_header.filter (fun d => d.ret = CType.ioReturn)).length = 2
    ∧ (DDCSupport_header.filter
        (fun d => d.ret = CType.cfDictionaryRef)).length = 1
    ∧ (DDCSupport_header.filter (fun d => d.ret = CType.cfUUIDRef)).length = 1
    ∧ (DDCSupport_header.filter (fun d => d.ret = CType.cInt)).length = 4
    ∧ (DDCSupport_header.filter (fun d => d.ret = CType.void)).length = 1
    ∧ (DDCSupport_header.filter (fun d => d.ret = CType.bool)).length = 2
    ∧ IOAVService = CType.cfTypeRef := by
  decide

/-- Claim C3: both I2C transfer functions return `IOReturn`;
`IOAVServiceReadI2C` takes a service handle, a chip address, an offset, an
output buffer pointer and an output buffer size, and `IOAVServiceWriteI2C`
takes a service handle, a chip address, a data address, an input buffer
pointer and an input buffer size. -/
theorem claim_C3_i2c_signatures :
    IOAVServiceReadI2C.params
      = [IOAVService, CType.uint32, CType.uint32, CType.ptr CType.void,
          CType.uint32]
    ∧ IOAVServiceReadI2C.ret = CType.ioReturn
    ∧ IOAVServiceWriteI2C.params
      = [IOAVService, CType.uint32, CType.uint32, CType.ptr CType.void,
          CType.uint32]
    ∧ IOAVServiceWriteI2C.ret = CType.ioReturn := by
  decide

/-- Claim C4: exactly four declarations return the `int` status code, the
four brightness functions; each getter takes a display identifier and a
`float` pointer, each setter a display identifier and a `float` value. -/
theorem claim_C4_brightness_surface :
    DDCSupport_header.filter (fun d => d.ret = CType.cInt)
      = [DisplayServicesGetBrightness, DisplayServicesSetBrightness,
          DisplayServicesGetLinearBrightness,
          DisplayServicesSetLinearBrightness]
    ∧ DisplayServicesGetBrightness.params
      = [CType.cgDirectDisplayID, CType.ptr CType.cFloat]
    ∧ DisplayServicesSetBrightness.params
      = [CType.cgDirectDisplayID, CType.cFloat]
    ∧ DisplayServicesGetLinearBrightness.params
      = [CType.cgDirectDisplayID, CType.ptr CType.cFloat]
    ∧ DisplayServicesSetLinearBrightness.params
      = [CType.cgDirectDisplayID, CType.cFloat] := by
  decide

/-- Claim C5: exactly two declarations return the opaque service-handle
type, the two creators; `IOAVServiceCreate` takes only an allocator and
`IOAVServiceCreateWithService` takes an allocator together with an
underlying service reference. -/
theorem claim_C5_creator_surface :
    DDCSupport_header.filter (fun d => d.ret = IOAVService)
      = [IOAVServiceCreate, IOAVServiceCreateWithService]
    ∧ IOAVServiceCreate.params = [CType.cfAllocatorRef]
    ∧ IOAVServiceCreateWithService.params
      = [CType.cfAllocatorRef, CType.ioServiceT] := by
  decide

/-- Claim C6: `CGSServiceForDisplayNumber` takes a display identifier and a
pointer to a service reference, returns `void`, and hence delivers its
result only through the out-parameter with no status code. -/
theorem claim_C6_service_resolution_signature :
    CGSServiceForDisplayNumber.params
      = [CType.cgDirectDisplayID, CType.ptr CType.ioServiceT]
    ∧ CGSServiceForDisplayNumber.ret = CType.void := by
  decide

/-- Claim C7: `CoreDisplay_DisplayCreateInfoDictionary` takes exactly one
argument, a display identifier, and returns a dictionary reference;
`CGDisplayCreateUUIDFromDisplayID` takes exactly one argument, a display
identifier, and returns a UUID reference. -/
theorem claim_C7_info_and_uuid_signatures :
    CoreDisplay_DisplayCreateInfoDictionary.params
      = [CType.cgDirectDisplayID]
    ∧ CoreDisplay_DisplayCreateInfoDictionary.ret = CType.cfDictionaryRef
    ∧ CGDisplayCreateUUIDFromDisplayID.params = [CType.cgDirectDisplayID]
    ∧ CGDisplayCreateUUIDFromDisplayID.ret = CType.cfUUIDRef := by
  decide

/-- Claim C8: `IOAVService` is a plain alias of `CFTypeRef`, so any type
equal to `CFTypeRef` is equal to the service-handle type and the interface
draws no distinction between the two. -/
theorem claim_C8_service_handle_is_cftyperef_alias :
    IOAVService = CType.cfTypeRef
    ∧ ∀ t : CType, t = IOAVService ↔ t = CType.cfTypeRef :=
  ⟨rfl, fun _ => Iff.rfl⟩

/-- Claim C9: the HDR queries return a bare boolean — not an `IOReturn`
and not an `int` status code — and take no pointer parameter through which
an error could be reported; their weak-import flag is set, link-time
absence being the only distinct failure mode. -/
theorem claim_C9_hdr_bare_boolean :
    CGSIsHDREnabled.ret = CType.bool
    ∧ CGSIsHDRSupported.ret = CType.bool
    ∧ CGSIsHDREnabled.ret ≠ CType.ioReturn
    ∧ CGSIsHDREnabled.ret ≠ CType.cInt
    ∧ CGSIsHDRSupported.ret ≠ CType.ioReturn
    ∧ CGSIsHDRSupported.ret ≠ CType.cInt
    ∧ CGSIsHDREnabled.params.all (fun t => ¬ t.isPtr) = true
    ∧ CGSIsHDRSupported.params.all (fun t => ¬ t.isPtr) = true
    ∧ CGSIsHDREnabled.weakImport = true
    ∧ CGSIsHDRSupported.weakImport = true := by
  decide

/-- Claim C10: in both I2C transfer functions the buffer parameter is an
untyped `void*` and the size a separate unsigned 32-bit parameter, and no
type in either signature — the write function's input buffer included —
carries a `const` qualifier. -/
theorem claim_C10_untyped_unconst_buffers :
    IOAVServiceReadI2C.params.get? 3 = some (CType.ptr CType.void)
    ∧ IOAVServiceReadI2C.params.get? 4 = some CType.uint32
    ∧ IOAVServiceWriteI2C.params.get? 3 = some (CType.ptr CType.void)
    ∧ IOAVServiceWriteI2C.params.get? 4 = some CType.uint32
    ∧ IOAVServiceReadI2C.mentionsConst = false
    ∧ IOAVServiceWriteI2C.mentionsConst = false := by
  decide
